import Mathlib

/-!
Verification of the coffee-leaf-disease detection and RAG assistant
application.  The Python sources (`rag_chat.py`, `build_vectorstore.py`,
`yolo_model.py`, `main.py`, `config.py`) are shallowly embedded below:
pure string manipulation is translated to executable Lean functions over
`String`/`List Char`; calls into external services (the hosted LLM, the
conversational retrieval chain, the object-detection model, the PDF
reader, the text splitter) are modelled as function-valued parameters
whose results the embedded code consumes, with exceptions modelled by
`Except`.  Every embedded definition is named after its Python source.
-/

namespace CoffeeRag

/-! ## Python string primitives -/

/-- Python's substring test `needle in hay`: `needle` occurs contiguously in
`hay` (the empty needle always occurs). -/
def strContains (hay needle : String) : Bool :=
  (List.range (hay.data.length + 1)).any fun i => needle.data.isPrefixOf (hay.data.drop i)

/-- Python's `str.lower()`, modelled per character (the sources only lower-case
ASCII keyword/question text). -/
def pyLower (s : String) : String := ⟨s.data.map Char.toLower⟩

/-- Python's `str.strip()`: drop leading and trailing whitespace. -/
def pyStrip (s : String) : String :=
  ⟨((s.data.dropWhile Char.isWhitespace).reverse.dropWhile Char.isWhitespace).reverse⟩

/-- Python's `str.startswith(pre)`. -/
def pyStartsWith (s pre : String) : Bool := pre.data.isPrefixOf s.data

/-- Helper for `pySplit`: accumulate the current word (reversed in `acc`) and
split at whitespace, dropping empty runs. -/
def wordsAux : List Char → List Char → List (List Char)
  | [], acc => if acc.isEmpty then [] else [acc.reverse]
  | c :: rest, acc =>
    if c.isWhitespace then
      if acc.isEmpty then wordsAux rest [] else acc.reverse :: wordsAux rest []
    else wordsAux rest (c :: acc)

/-- Python's no-argument `str.split()`: split on whitespace runs, no empty
words. -/
def pySplit (s : String) : List String := (wordsAux s.data []).map List.asString

/-- Helper for `pySplitOn`: Python's `str.split(sep)` scan, left to right,
cutting at each non-overlapping occurrence of the (non-empty) separator.
`acc` holds the current piece, reversed. -/
def splitOnAux (sep : List Char) (l : List Char) (acc : List Char) : List (List Char) :=
  match l with
  | [] => [acc.reverse]
  | c :: rest =>
    if h : sep ≠ [] ∧ sep.isPrefixOf (c :: rest) then
      acc.reverse :: splitOnAux sep (List.drop sep.length (c :: rest)) []
    else
      splitOnAux sep rest (c :: acc)
termination_by l.length
decreasing_by
  · simp only [List.length_drop]
    have : sep.length ≠ 0 := by
      intro h0
      exact h.1 (List.eq_nil_of_length_eq_zero h0)
    simp only [List.length_cons]
    omega
  · simp

/-- Python's `str.split(sep)` for a non-empty separator `sep`. -/
def pySplitOn (s sep : String) : List String :=
  (splitOnAux sep.data s.data []).map List.asString

/-! ## rag_chat.py: data model

The external collaborators of `generate_answer` are modelled as functions.
An LLM is its `predict` method; a raised exception is `Except.error`.
The conversational retrieval chain is a callable returning either a dict
with an `"answer"` key (its answer text plus the `page_content` of each
source document) or some other value, modelled by its `str()` rendering. -/

/-- The hosted LLM (ChatGroq): `predict` returns an answer or raises. -/
structure LLM where
  predict : String → Except Unit String

/-- The value a `conversation({"question": ...})` call produces. -/
inductive ChainResponse where
  | dictAnswer (answer : String) (source_documents : List String)
  | other (rendered : String)
deriving DecidableEq

/-- The conversational retrieval chain: a callable that answers or raises. -/
structure Conversation where
  call : String → Except Unit ChainResponse

/-- External calls `generate_answer` makes, in order: a direct `llm.predict`
with a given prompt, or a retrieval-chain invocation on a question. -/
inductive Event where
  | llmPredict (prompt : String)
  | chainCall (question : String)
deriving DecidableEq

/-! ## rag_chat.py: constants -/

/-- rag_chat.py line 80. -/
def coffee_keywords : List String :=
  ["coffee", "leaf", "disease", "plant", "crop", "fungus", "pest", "treatment",
   "remedy", "cultivation", "agriculture", "farming"]

/-- rag_chat.py line 84. -/
def general_greetings : List String :=
  ["hi", "hello", "good morning", "good afternoon", "good evening", "how are you",
   "thanks", "thank you"]

/-- rag_chat.py line 81: some coffee keyword occurs in the lower-cased
question. -/
def is_coffee_related (question : String) : Bool :=
  coffee_keywords.any fun keyword => strContains (pyLower question) (pyLower keyword)

/-- rag_chat.py line 85: some greeting phrase occurs in the lower-cased
question. -/
def is_greeting (question : String) : Bool :=
  general_greetings.any fun greeting => strContains (pyLower question) (pyLower greeting)

/-- rag_chat.py lines 91-97: the f-string prompt for greetings (20-space
indentation from the Python triple-quoted literal). -/
def greeting_prompt (question : String) : String :=
  "\n                    You are a helpful coffee agriculture assistant. Respond to this greeting in a friendly, professional manner and offer to help with coffee-related questions:\n                    \n                    User: " ++ question ++
  "\n                    \n                    Keep your response brief and friendly.\n                    "

/-- rag_chat.py lines 99-103: the f-string prompt for off-topic questions. -/
def redirect_prompt (question : String) : String :=
  "\n                    You are a helpful assistant specializing in coffee agriculture and plant diseases. The user asked: " ++ question ++
  "\n                    \n                    If this question is not related to coffee, plants, or agriculture, politely redirect them to coffee-related topics while still being helpful.\n                    "

/-- rag_chat.py lines 142-149: the f-string prompt of the irrelevant-answer
LLM fallback (24-space indentation). -/
def fallback_prompt (question : String) : String :=
  "\n                        You are an expert in coffee cultivation and plant pathology. Please provide a detailed and helpful answer to the following question:\n                        \n                        Question: " ++ question ++
  "\n                        \n                        If you don\x27t have specific information about this topic, please say so and provide general guidance where appropriate.\n                        Be honest about the limitations of your knowledge while still being helpful.\n                        "

/-- rag_chat.py lines 173-178: the f-string prompt of the chain-exception
LLM fallback (16-space indentation). -/
def error_fallback_prompt (question : String) : String :=
  "\n                You are a helpful coffee agriculture expert. Please answer this question:\n                " ++ question ++
  "\n                \n                Be friendly and helpful, and if you don\x27t know something specific, admit it while providing what general guidance you can.\n                "

/-- rag_chat.py line 77. -/
def not_initialized_message : String := "RAG system not initialized."

/-- rag_chat.py line 108: returned when the greeting/off-topic LLM call
raises. -/
def greeting_error_message : String :=
  "Hello! I\x27m here to help you with coffee leaf diseases and cultivation questions. How can I assist you today?"

/-- rag_chat.py line 182: returned when the chain raised and the fallback LLM
call also raised. -/
def tech_difficulties_message : String :=
  "I apologize, but I\x27m currently experiencing technical difficulties. Please try asking your question again."

/-- rag_chat.py line 185: returned when the chain raised and no LLM was
provided. -/
def cannot_process_message : String :=
  "I\x27m sorry, I\x27m unable to process your question right now. Please try again later."

/-! ## rag_chat.py: generate_answer -/

/-- rag_chat.py lines 120-121: keep only the text after the last
`"Helpful Answer:"`, stripped, when that marker occurs. -/
def cleanAnswer (answer : String) : String :=
  if strContains answer "Helpful Answer:" then
    pyStrip ((pySplitOn answer "Helpful Answer:").getLastD "")
  else answer

/-- rag_chat.py lines 125-130: the four irrelevance indicators, evaluated on
the (cleaned) answer and the question. -/
def irrelevant_indicators (question answer : String) : List Bool :=
  [ strContains (pyLower answer) "according to the provided coffee leaf disease guide",
    strContains (pyLower answer) "leaf miner" && ! strContains (pyLower question) "leaf miner",
    decide ((pyStrip answer).data.length < 20),
    pyStartsWith (pyStrip answer) "*" && ! strContains (pyLower answer) (pyLower question) ]

/-- rag_chat.py lines 133-139: `similarity_score < 0.1`, where
`similarity_score = len(common_words) / max(len(question_words), 1)` on the
word sets of question and answer; the float comparison is modelled by the
equivalent exact rational test `10 * len(common) < max(len(question_words), 1)`. -/
def similarity_below (question answer : String) : Bool :=
  let question_words := (pySplit (pyLower question)).dedup
  let answer_words := (pySplit (pyLower answer)).dedup
  let common_words := question_words.filter fun w => answer_words.contains w
  decide (10 * common_words.length < max question_words.length 1)

/-- rag_chat.py lines 138-156: if the answer looks irrelevant or overlaps the
question too little, replace answer and sources by the fallback LLM response
(keeping the originals when the fallback raises or no LLM is provided).
Returns the (answer, sources) pair before source cleanup plus the LLM calls
made. -/
def dictAnswerSources (question answer : String) (sources : List String)
    (llm : Option LLM) : (String × List String) × List Event :=
  if (irrelevant_indicators question answer).any id || similarity_below question answer then
    match llm with
    | some l =>
      match l.predict (fallback_prompt question) with
      | Except.ok llm_response =>
          ((pyStrip llm_response, ["Generated from general agricultural knowledge"]),
           [Event.llmPredict (fallback_prompt question)])
      | Except.error _ => ((answer, sources), [Event.llmPredict (fallback_prompt question)])
    | none => ((answer, sources), [])
  else ((answer, sources), [])

/-- rag_chat.py lines 159-160: an empty source list, or one whose stripped
entries are all shorter than 20 characters, becomes the fixed placeholder. -/
def sourcesCleanup (sources : List String) : List String :=
  if sources.isEmpty || sources.all (fun src => (pyStrip src).data.length < 20) then
    ["Retrieved from knowledge base"]
  else sources

/-- rag_chat.py lines 110-188: the retrieval-chain path of `generate_answer`,
including the chain-exception fallback.  Also returns the external calls
made, in order (the source's local variables `answer` and the fallback
result are inlined). -/
def chainAnswer (question : String) (conv : Conversation) (llm : Option LLM) :
    (String × List String) × List Event :=
  match conv.call question with
  | Except.ok (ChainResponse.dictAnswer answer0 source_docs) =>
      (((dictAnswerSources question (cleanAnswer answer0) source_docs llm).1.1,
        sourcesCleanup (dictAnswerSources question (cleanAnswer answer0) source_docs llm).1.2),
       Event.chainCall question ::
         (dictAnswerSources question (cleanAnswer answer0) source_docs llm).2)
  | Except.ok (ChainResponse.other rendered) =>
      ((rendered, ["No sources available"]), [Event.chainCall question])
  | Except.error _ =>
      match llm with
      | some l =>
        match l.predict (error_fallback_prompt question) with
        | Except.ok answer =>
            ((answer, ["Generated from general knowledge (system temporarily unavailable)"]),
             [Event.chainCall question, Event.llmPredict (error_fallback_prompt question)])
        | Except.error _ =>
            ((tech_difficulties_message, []),
             [Event.chainCall question, Event.llmPredict (error_fallback_prompt question)])
      | none => ((cannot_process_message, []), [Event.chainCall question])

/-- rag_chat.py lines 88-108: the direct-LLM branch taken for greetings and
off-topic questions when an LLM is provided; the greeting prompt is used for
greetings and the redirect prompt otherwise (the source's local variable
`greeting_prompt` is inlined). -/
def greetingAnswer (question : String) (l : LLM) : (String × List String) × List Event :=
  match l.predict (if is_greeting question then greeting_prompt question
                   else redirect_prompt question) with
  | Except.ok answer =>
      ((pyStrip answer, ["Generated from general knowledge"]),
       [Event.llmPredict (if is_greeting question then greeting_prompt question
                          else redirect_prompt question)])
  | Except.error _ =>
      ((greeting_error_message, []),
       [Event.llmPredict (if is_greeting question then greeting_prompt question
                          else redirect_prompt question)])

/-- rag_chat.py lines 74-188: `generate_answer`, instrumented with the list
of external calls it makes.  The greeting/off-topic branch only returns when
an LLM is provided (rag_chat.py line 88); otherwise control falls through to
the retrieval chain, exactly as in the source. -/
def generateAnswerT (question : String) (conversation : Option Conversation)
    (llm : Option LLM) : (String × List String) × List Event :=
  match conversation with
  | none => ((not_initialized_message, []), [])
  | some conv =>
    if is_greeting question || ! is_coffee_related question then
      match llm with
      | some l => greetingAnswer question l
      | none => chainAnswer question conv llm
    else chainAnswer question conv llm

/-- rag_chat.py `generate_answer`: the (answer, sources) pair it returns. -/
def generate_answer (question : String) (conversation : Option Conversation)
    (llm : Option LLM) : String × List String :=
  (generateAnswerT question conversation llm).1

/-- The source-document texts the retrieval chain would hand back for a
question: the `source_documents` of a successful dict response, else none. -/
def chainDocs (conversation : Option Conversation) (question : String) : List String :=
  match conversation with
  | some conv =>
    match conv.call question with
    | Except.ok (ChainResponse.dictAnswer _ docs) => docs
    | _ => []
  | none => []

/-! ## rag_chat.py: prepare_rag_llm and the conversation memory

`ConversationBufferWindowMemory` is a langchain class; its documented
behaviour is modelled here: `save_context` appends one conversation turn to
the stored buffer, and `load_memory_variables` exposes only the last `k`
turns as the chat history fed into the retrieval chain. -/

/-- Models langchain's `ConversationBufferWindowMemory`: the window size `k`
and the stored conversation turns (question, answer), oldest first. -/
structure ConversationBufferWindowMemory where
  k : Nat
  buffer : List (String × String)

/-- Models `ConversationBufferWindowMemory.save_context`: append one turn. -/
def save_context (m : ConversationBufferWindowMemory) (turn : String × String) :
    ConversationBufferWindowMemory :=
  { m with buffer := m.buffer ++ [turn] }

/-- Models `ConversationBufferWindowMemory.load_memory_variables`: only the
last `k` stored turns are returned as chat history. -/
def load_memory_variables (m : ConversationBufferWindowMemory) : List (String × String) :=
  m.buffer.drop (m.buffer.length - m.k)

/-- The configuration `prepare_rag_llm` assembles (rag_chat.py lines 24-68):
LLM model name and token limit, the conversation memory, the embedding model
and the retriever search parameters.  The float `temperature=0.3` is not
modelled. -/
structure RagSystem where
  llm_model : String
  max_tokens : Nat
  memory : ConversationBufferWindowMemory
  embeddings_model : String
  retriever_k : Nat
  retriever_fetch_k : Nat
  vector_store_path : String

/-- rag_chat.py lines 24-68: `prepare_rag_llm` builds the LLM, a window
memory with `k = 5` and an empty buffer, the embeddings and the retrieval
chain over the persisted store. -/
def prepare_rag_llm (api_key vector_store_path : String) : RagSystem :=
  { llm_model := "llama3-8b-8192"
    max_tokens := 2048
    memory := { k := 5, buffer := [] }
    embeddings_model := "sentence-transformers/all-MiniLM-L6-v2"
    retriever_k := 3
    retriever_fetch_k := 10
    vector_store_path := vector_store_path }

/-! ## build_vectorstore.py

PDF parsing, the recursive text splitter, the embedding model and the FAISS
index are third-party collaborators; they are modelled as functions in a
`BuildEnv` (`pdfPages path` is the list of `page.extract_text()` results of
the PDF at `path`, in page order; `splitText cs co text` is
`RecursiveCharacterTextSplitter(chunk_size=cs, chunk_overlap=co).split_text(text)`).
The pipeline's effects are recorded as an ordered list of `BuildStep`s. -/

structure BuildEnv where
  pdfPages : String → List String
  splitText : Nat → Nat → String → List String

/-- One effectful stage of `create_faiss_vectorstore`, in source order. -/
inductive BuildStep where
  | readPDF (pdf_path : String)
  | splitDocuments (chunk_size chunk_overlap : Nat)
  | createEmbeddings (model_name : String)
  | buildVectorstore
  | makeDirs (save_dir : String)
  | saveLocal (save_dir : String)
deriving DecidableEq

/-- build_vectorstore.py lines 7-14: concatenate the extracted text of every
page whose text is non-empty (Python truthiness), each followed by a
newline. -/
def read_pdf (pages : List String) : String :=
  pages.foldl (fun text page_text =>
    if page_text ≠ "" then text ++ (page_text ++ "\n") else text) ""

/-- The spec's description of `read_pdf` (section 2, knowledge-base builder,
and claim C5): the extracted texts of pages with non-empty text, each
followed by a newline, concatenated in order.  Stated separately so the
source definition can be proved to refine it. -/
def read_pdf_spec (pages : List String) : String :=
  String.join ((pages.filter fun p => p ≠ "").map fun p => p ++ "\n")

/-- build_vectorstore.py lines 16-23: `split_text` on the document text, then
`create_documents` on the resulting chunks; langchain's `create_documents`
splits each given text again and wraps every chunk in a `Document`, modelled
here by the chunk's text.  Defaults in the source: `chunk_size=1000`,
`chunk_overlap=200`. -/
def split_text_to_documents (env : BuildEnv) (text : String)
    (chunk_size chunk_overlap : Nat) : List String :=
  let texts := env.splitText chunk_size chunk_overlap text
  texts.flatMap fun t => env.splitText chunk_size chunk_overlap t

/-- build_vectorstore.py lines 25-43: the offline pipeline, returning its
stages in execution order together with the chunk texts that get embedded
and persisted. -/
def create_faiss_vectorstore (env : BuildEnv) (pdf_path save_dir : String) :
    List BuildStep × List String :=
  let doc_text := read_pdf (env.pdfPages pdf_path)
  let documents := split_text_to_documents env doc_text 1000 200
  ([BuildStep.readPDF pdf_path,
    BuildStep.splitDocuments 1000 200,
    BuildStep.createEmbeddings "sentence-transformers/all-MiniLM-L6-v2",
    BuildStep.buildVectorstore,
    BuildStep.makeDirs save_dir,
    BuildStep.saveLocal save_dir],
   documents)

/-! ## yolo_model.py

The YOLO model is an external collaborator: calling it on an image yields a
result carrying the class-name map `names`, the detected boxes' class ids
`boxes.cls` (already cast through `int(...)`) and the annotated image
`plot()` produces. -/

/-- What `model(image)[0]` exposes, over an opaque image type. -/
structure YoloResult (Img : Type) where
  names : Nat → String
  boxesCls : List Nat
  plot : Img

/-- yolo_model.py lines 10-16: map each detected box's class id through the
model's class-name map, and return the labels with the annotated image. -/
def detect_diseases {Img : Type} (image : Img) (model : Img → YoloResult Img) :
    List String × Img :=
  let results := model image
  (results.boxesCls.map results.names, results.plot)

/-! ## main.py: the presentation-layer fragments the claims are about -/

/-- What the detection section of `main` renders after `detect_diseases`
returns. -/
inductive DetectionOutcome where
  | healthy (message : String)
  | remedy (query answer : String) (sources : List String)
deriving DecidableEq

/-- main.py lines 38-61: with detections, build the remedy question over the
distinct detected diseases (`set(detected_classes)`, whose iteration order
Python leaves unspecified and which is modelled as first-occurrence order)
and answer it through `generate_answer`; with no detections, show the
healthy-leaf message. -/
def detection_flow (detected_classes : List String) (conversation : Option Conversation)
    (llm : Option LLM) : DetectionOutcome :=
  if detected_classes.isEmpty then
    DetectionOutcome.healthy "✅ No disease detected on the leaf. The leaf appears healthy!"
  else
    let unique_diseases := detected_classes.dedup
    let joined := String.intercalate ", " unique_diseases
    let remedy_question :=
      "What is the remedy for " ++ joined ++
      " in coffee leaves? Provide detailed treatment and prevention methods."
    let rs := generate_answer remedy_question conversation llm
    DetectionOutcome.remedy remedy_question rs.1 rs.2

/-- How main.py lines 107-114 render the latest sources. -/
inductive SourcesView where
  | nothingShown
  | expanderShown
  | noticeShown
deriving DecidableEq

/-- main.py lines 107-114: an empty (falsy) source list shows nothing; a
non-empty one shows the source expander unless its first element is the
sentinel `"Fallback to LLM (no retrieved docs)"`, in which case the
general-knowledge notice is shown instead. -/
def latest_sources_view (latest_sources : List String) : SourcesView :=
  match latest_sources with
  | [] => SourcesView.nothingShown
  | s0 :: _ =>
    if s0 ≠ "Fallback to LLM (no retrieved docs)" then SourcesView.expanderShown
    else SourcesView.noticeShown

/-! ## Stub collaborators for concrete evaluations -/

/-- A stub retrieval chain: always returns a fixed dict response with no
source documents. -/
def stubConversation : Conversation :=
  ⟨fun _ => Except.ok (ChainResponse.dictAnswer "stub answer" [])⟩

/-- A stub chain that always raises. -/
def failingConversation : Conversation := ⟨fun _ => Except.error ()⟩

/-- A stub LLM whose predict always succeeds with a fixed reply. -/
def stubLLM : LLM := ⟨fun _ => Except.ok "Apply copper based fungicide"⟩

/-! ## Helper lemmas -/

theorem string_append_assoc (a b c : String) : a ++ b ++ c = a ++ (b ++ c) := by
  apply String.ext
  simp [String.data_append, List.append_assoc]

theorem foldl_save_context_k (turns : List (String × String))
    (m : ConversationBufferWindowMemory) : (turns.foldl save_context m).k = m.k := by
  induction turns generalizing m with
  | nil => rfl
  | cons t ts ih => simpa [save_context] using ih (save_context m t)

theorem read_pdf_spec_cons (p : String) (ps : List String) :
    read_pdf_spec (p :: ps) = (if p ≠ "" then p ++ "\n" else "") ++ read_pdf_spec ps := by
  unfold read_pdf_spec
  by_cases hp : p = ""
  · simp [hp, String.empty_append]
  · apply String.ext
    simp [hp, String.data_append]

theorem read_pdf_foldl (pages : List String) (acc : String) :
    pages.foldl (fun text page_text =>
      if page_text ≠ "" then text ++ (page_text ++ "\n") else text) acc
    = acc ++ read_pdf_spec pages := by
  induction pages generalizing acc with
  | nil =>
    rw [List.foldl_nil, show read_pdf_spec [] = "" from rfl, String.append_empty]
  | cons p ps ih =>
    rw [List.foldl_cons, ih, read_pdf_spec_cons]
    by_cases hp : p = ""
    · simp [hp, String.empty_append]
    · simp [hp, string_append_assoc]

theorem sourcesCleanup_ne_nil (sources : List String) : sourcesCleanup sources ≠ [] := by
  unfold sourcesCleanup
  split
  · simp
  · rename_i hcond
    intro hnil
    simp [hnil] at hcond

theorem sourcesCleanup_cases (sources : List String) :
    sourcesCleanup sources = ["Retrieved from knowledge base"] ∨
    sourcesCleanup sources = sources := by
  unfold sourcesCleanup
  split
  · exact Or.inl rfl
  · exact Or.inr rfl

theorem dictAnswerSources_sources_cases (question answer : String) (sources : List String)
    (llm : Option LLM) :
    (dictAnswerSources question answer sources llm).1.2
        = ["Generated from general agricultural knowledge"] ∨
    (dictAnswerSources question answer sources llm).1.2 = sources := by
  cases llm with
  | none =>
    simp only [dictAnswerSources]
    split <;> simp
  | some l =>
    cases hp : l.predict (fallback_prompt question) with
    | ok r =>
      simp only [dictAnswerSources, hp]
      split <;> simp
    | error e =>
      simp only [dictAnswerSources, hp]
      split <;> simp

theorem greetingAnswer_sources_cases (question : String) (l : LLM) :
    (greetingAnswer question l).1.2 = ["Generated from general knowledge"] ∨
    (greetingAnswer question l).1.2 = [] := by
  cases hp : l.predict (if is_greeting question then greeting_prompt question
                        else redirect_prompt question) with
  | ok a => simp [greetingAnswer, hp]
  | error e => simp [greetingAnswer, hp]

theorem chainAnswer_events_head (question : String) (conv : Conversation) (llm : Option LLM) :
    (chainAnswer question conv llm).2.head? = some (Event.chainCall question) := by
  cases hc : conv.call question with
  | ok resp =>
    cases resp with
    | dictAnswer a docs => simp [chainAnswer, hc]
    | other r => simp [chainAnswer, hc]
  | error e =>
    cases llm with
    | none => simp [chainAnswer, hc]
    | some l =>
      cases hp : l.predict (error_fallback_prompt question) with
      | ok a => simp [chainAnswer, hc, hp]
      | error e2 => simp [chainAnswer, hc, hp]

theorem chainAnswer_sources_cases (question : String) (conv : Conversation) (llm : Option LLM) :
    (chainAnswer question conv llm).1.2 = [] ∨
    (chainAnswer question conv llm).1.2 = ["Generated from general agricultural knowledge"] ∨
    (chainAnswer question conv llm).1.2 = ["Retrieved from knowledge base"] ∨
    (chainAnswer question conv llm).1.2 = ["No sources available"] ∨
    (chainAnswer question conv llm).1.2
        = ["Generated from general knowledge (system temporarily unavailable)"] ∨
    (chainAnswer question conv llm).1.2 = chainDocs (some conv) question := by
  cases hc : conv.call question with
  | ok resp =>
    cases resp with
    | dictAnswer a docs =>
      simp only [chainAnswer, chainDocs, hc]
      rcases sourcesCleanup_cases (dictAnswerSources question (cleanAnswer a) docs llm).1.2
          with h1 | h1
      · rw [h1]; simp
      · rw [h1]
        rcases dictAnswerSources_sources_cases question (cleanAnswer a) docs llm
            with h2 | h2 <;> rw [h2] <;> simp
    | other r => simp [chainAnswer, chainDocs, hc]
  | error e =>
    cases llm with
    | none => simp [chainAnswer, chainDocs, hc]
    | some l =>
      cases hp : l.predict (error_fallback_prompt question) with
      | ok a => simp [chainAnswer, chainDocs, hc, hp]
      | error e2 => simp [chainAnswer, chainDocs, hc, hp]

theorem generateAnswer_sources_cases (question : String) (conversation : Option Conversation)
    (llm : Option LLM) :
    (generateAnswerT question conversation llm).1.2 = [] ∨
    (generateAnswerT question conversation llm).1.2 = ["Generated from general knowledge"] ∨
    (generateAnswerT question conversation llm).1.2
        = ["Generated from general agricultural knowledge"] ∨
    (generateAnswerT question conversation llm).1.2 = ["Retrieved from knowledge base"] ∨
    (generateAnswerT question conversation llm).1.2 = ["No sources available"] ∨
    (generateAnswerT question conversation llm).1.2
        = ["Generated from general knowledge (system temporarily unavailable)"] ∨
    (generateAnswerT question conversation llm).1.2 = chainDocs conversation question := by
  cases conversation with
  | none => left; rfl
  | some conv =>
    cases llm with
    | none =>
      simp only [generateAnswerT]
      split
      · rcases chainAnswer_sources_cases question conv none with h | h | h | h | h | h <;>
          simp [h]
      · rcases chainAnswer_sources_cases question conv none with h | h | h | h | h | h <;>
          simp [h]
    | some l =>
      simp only [generateAnswerT]
      split
      · rcases greetingAnswer_sources_cases question l with h | h <;> simp [h]
      · rcases chainAnswer_sources_cases question conv (some l) with h | h | h | h | h | h <;>
          simp [h]

/-! ## Claim theorems -/

/-- Claim C8: for every question, when the conversation argument is absent
(falsy), `generate_answer` returns the fixed string `"RAG system not
initialized."` with an empty sources list and makes no external call — in
particular the LLM is never invoked, even when one is provided. -/
theorem generate_answer_uninitialized (question : String) (llm : Option LLM) :
    generate_answer question none llm = ("RAG system not initialized.", []) ∧
    (generateAnswerT question none llm).2 = [] :=
  ⟨rfl, rfl⟩

/-- Claim C1, counterexample: the claim fails as stated when no LLM is
provided.  `"hi"` contains a greeting phrase and no coffee-domain keyword,
yet `generate_answer("hi", conversation, llm=None)` sends the question to
the conversational retrieval chain (its only external call is the chain
call), instead of answering it by a direct LLM call. -/
theorem generate_answer_greeting_hits_chain_without_llm :
    is_greeting "hi" = true ∧ is_coffee_related "hi" = false ∧
    (generateAnswerT "hi" (some stubConversation) none).2 = [Event.chainCall "hi"] :=
  ⟨by decide, by decide, by decide⟩

/-- Claim C1, amended: when an LLM is provided, `generate_answer` routes
every question to exactly one of the three handlers as classified: a
question containing a greeting phrase is answered by a single direct LLM
call with the greeting prompt (with a fixed greeting message if that call
raises); a question with no coffee-domain keyword and no greeting phrase is
answered by a single direct LLM call with the redirect prompt; only a
question containing a coffee-domain keyword and no greeting phrase is sent
to the conversational retrieval chain, whose call is then the first external
call made. -/
theorem generate_answer_routing_with_llm (question : String) (conv : Conversation) (l : LLM) :
    if is_greeting question then
      generateAnswerT question (some conv) (some l)
        = (match l.predict (greeting_prompt question) with
           | Except.ok answer =>
               ((pyStrip answer, ["Generated from general knowledge"]),
                [Event.llmPredict (greeting_prompt question)])
           | Except.error _ =>
               ((greeting_error_message, []), [Event.llmPredict (greeting_prompt question)]))
    else if is_coffee_related question then
      (generateAnswerT question (some conv) (some l)).2.head? = some (Event.chainCall question)
    else
      generateAnswerT question (some conv) (some l)
        = (match l.predict (redirect_prompt question) with
           | Except.ok answer =>
               ((pyStrip answer, ["Generated from general knowledge"]),
                [Event.llmPredict (redirect_prompt question)])
           | Except.error _ =>
               ((greeting_error_message, []), [Event.llmPredict (redirect_prompt question)])) := by
  by_cases hg : is_greeting question = true
  · rw [if_pos hg]
    have hcond : (is_greeting question || ! is_coffee_related question) = true := by
      rw [hg]; rfl
    have he : generateAnswerT question (some conv) (some l) = greetingAnswer question l := by
      simp only [generateAnswerT, hcond]
      rfl
    rw [he]
    unfold greetingAnswer
    rw [if_pos hg]
  · have hg' : is_greeting question = false := by
      revert hg; cases is_greeting question <;> simp
    rw [if_neg hg]
    by_cases hc : is_coffee_related question = true
    · rw [if_pos hc]
      have hcond : (is_greeting question || ! is_coffee_related question) = false := by
        simp [hg', hc]
      have he : generateAnswerT question (some conv) (some l)
          = chainAnswer question conv (some l) := by
        simp only [generateAnswerT, hcond]
        rfl
      rw [he]
      exact chainAnswer_events_head question conv (some l)
    · have hc' : is_coffee_related question = false := by
        revert hc; cases is_coffee_related question <;> simp
      rw [if_neg hc]
      have hcond : (is_greeting question || ! is_coffee_related question) = true := by
        rw [hg', hc']; rfl
      have he : generateAnswerT question (some conv) (some l) = greetingAnswer question l := by
        simp only [generateAnswerT, hcond]
        rfl
      rw [he]
      unfold greetingAnswer
      rw [if_neg hg]

/-- Claim C2: for every answer the retrieval chain returns (as a dict with
an `"answer"` key), `generate_answer` replaces it by the (stripped) direct
LLM fallback answer with the fixed fallback source exactly when at least one
of the four irrelevance indicators holds of the cleaned answer or the
word-overlap similarity score is below 0.1; otherwise the (cleaned)
retrieved answer and the cleaned-up retrieved sources are kept.  Stated for
a routed, coffee-related non-greeting question and an LLM whose fallback
call succeeds. -/
theorem generate_answer_fallback_decision (question answer : String) (docs : List String)
    (l : LLM) (llm_response : String)
    (hc : is_coffee_related question = true)
    (hg : is_greeting question = false)
    (hp : l.predict (fallback_prompt question) = Except.ok llm_response) :
    generate_answer question
        (some ⟨fun _ => Except.ok (ChainResponse.dictAnswer answer docs)⟩) (some l)
      = if (irrelevant_indicators question (cleanAnswer answer)).any id
            || similarity_below question (cleanAnswer answer) then
          (pyStrip llm_response, ["Generated from general agricultural knowledge"])
        else
          (cleanAnswer answer, sourcesCleanup docs) := by
  have hcond : (is_greeting question || ! is_coffee_related question) = false := by
    simp [hg, hc]
  have he : generate_answer question
        (some ⟨fun _ => Except.ok (ChainResponse.dictAnswer answer docs)⟩) (some l)
      = ((dictAnswerSources question (cleanAnswer answer) docs (some l)).1.1,
         sourcesCleanup (dictAnswerSources question (cleanAnswer answer) docs (some l)).1.2) := by
    unfold generate_answer
    simp only [generateAnswerT, hcond]
    rfl
  rw [he]
  unfold dictAnswerSources
  split
  · simp only [hp]
    have hclean : sourcesCleanup ["Generated from general agricultural knowledge"]
        = ["Generated from general agricultural knowledge"] := by decide
    rw [hclean]
  · rfl

/-- Claim C2, witness at a concrete input: `"coffee"` is coffee-related and
not a greeting, the chain answer `"short"` trips the short-answer indicator,
and the fallback LLM reply is kept. -/
theorem generate_answer_fallback_decision_witness :
    is_coffee_related "coffee" = true ∧ is_greeting "coffee" = false ∧
    generate_answer "coffee"
        (some ⟨fun _ => Except.ok (ChainResponse.dictAnswer "short" [])⟩) (some stubLLM)
      = if (irrelevant_indicators "coffee" (cleanAnswer "short")).any id
            || similarity_below "coffee" (cleanAnswer "short") then
          (pyStrip "Apply copper based fungicide",
           ["Generated from general agricultural knowledge"])
        else
          (cleanAnswer "short", sourcesCleanup []) :=
  ⟨by decide, by decide,
    generate_answer_fallback_decision "coffee" "short" [] stubLLM
      "Apply copper based fungicide" (by decide) (by decide) rfl⟩

/-- Claim C3: if the retrieval chain raises on a routed domain-relevant
question, `generate_answer` returns the fallback LLM answer with the single
source `"Generated from general knowledge (system temporarily unavailable)"`;
if that fallback call also raises, or no LLM was provided, it returns a
fixed apology message with an empty sources list.  In every case the
embedded `generate_answer` returns a value, so the exception never reaches
the caller. -/
theorem generate_answer_chain_exception_fallback (question : String) (llm : Option LLM)
    (hc : is_coffee_related question = true)
    (hg : is_greeting question = false) :
    generate_answer question (some failingConversation) llm
      = match llm with
        | some l =>
          match l.predict (error_fallback_prompt question) with
          | Except.ok answer =>
              (answer, ["Generated from general knowledge (system temporarily unavailable)"])
          | Except.error _ => (tech_difficulties_message, [])
        | none => (cannot_process_message, []) := by
  have hcond : (is_greeting question || ! is_coffee_related question) = false := by
    simp [hg, hc]
  have he : generate_answer question (some failingConversation) llm
      = (chainAnswer question failingConversation llm).1 := by
    unfold generate_answer
    simp only [generateAnswerT, hcond]
    rfl
  rw [he]
  cases llm with
  | none => rfl
  | some l =>
    have hch : chainAnswer question failingConversation (some l)
        = match l.predict (error_fallback_prompt question) with
          | Except.ok answer =>
              ((answer, ["Generated from general knowledge (system temporarily unavailable)"]),
               [Event.chainCall question, Event.llmPredict (error_fallback_prompt question)])
          | Except.error _ =>
              ((tech_difficulties_message, []),
               [Event.chainCall question, Event.llmPredict (error_fallback_prompt question)]) :=
      rfl
    rw [hch]
    cases hp : l.predict (error_fallback_prompt question) with
    | ok a => simp [hp]
    | error e => simp [hp]

/-- Claim C3, witness at a concrete input: the chain raises on `"coffee"`
and the stub LLM's fallback answer is returned with the fixed source. -/
theorem generate_answer_chain_exception_fallback_witness :
    is_coffee_related "coffee" = true ∧ is_greeting "coffee" = false ∧
    generate_answer "coffee" (some failingConversation) (some stubLLM)
      = ("Apply copper based fungicide",
         ["Generated from general knowledge (system temporarily unavailable)"]) :=
  ⟨by decide, by decide,
    (generate_answer_chain_exception_fallback "coffee" (some stubLLM)
      (by decide) (by decide)).trans rfl⟩

/-- Claim C4: `prepare_rag_llm` constructs the conversation memory with
window size `k = 5`, and however many turns are saved into that memory, the
chat history it loads for the retrieval chain never exceeds 5 turns. -/
theorem prepare_rag_llm_memory_window (api_key vector_store_path : String) :
    (prepare_rag_llm api_key vector_store_path).memory.k = 5 ∧
    ∀ turns : List (String × String),
      (load_memory_variables
        (turns.foldl save_context (prepare_rag_llm api_key vector_store_path).memory)).length
        ≤ 5 := by
  constructor
  · rfl
  · intro turns
    have hk : (turns.foldl save_context (prepare_rag_llm api_key vector_store_path).memory).k
        = 5 := foldl_save_context_k turns _
    unfold load_memory_variables
    rw [List.length_drop, hk]
    omega

/-- Claim C5: the knowledge-base builder performs, in order, PDF text
extraction (concatenating the text of every page with non-empty text, each
followed by a newline), splitting with chunk size 1000 and chunk overlap
200, embedding computation with the configured model, index construction,
creation of the output directory, and persisting of the index there; and
the persisted chunks are exactly the split of the extracted text. -/
theorem create_faiss_vectorstore_pipeline (env : BuildEnv) (pdf_path save_dir : String)
    (pages : List String) :
    (create_faiss_vectorstore env pdf_path save_dir).1
      = [BuildStep.readPDF pdf_path,
         BuildStep.splitDocuments 1000 200,
         BuildStep.createEmbeddings "sentence-transformers/all-MiniLM-L6-v2",
         BuildStep.buildVectorstore,
         BuildStep.makeDirs save_dir,
         BuildStep.saveLocal save_dir] ∧
    read_pdf pages = read_pdf_spec pages ∧
    (create_faiss_vectorstore env pdf_path save_dir).2
      = split_text_to_documents env (read_pdf (env.pdfPages pdf_path)) 1000 200 := by
  refine ⟨rfl, ?_, rfl⟩
  have h := read_pdf_foldl pages ""
  rw [read_pdf, h, String.empty_append]

/-- Claim C6: `detect_diseases` returns one class label per detected box, in
box order, each obtained by looking up the box's class id in the model's
class-name map, together with the model's annotated image. -/
theorem detect_diseases_labels {Img : Type} (image : Img) (model : Img → YoloResult Img) :
    (detect_diseases image model).1.length = (model image).boxesCls.length ∧
    (∀ i : Nat, (detect_diseases image model).1[i]?
        = ((model image).boxesCls[i]?).map (model image).names) ∧
    (detect_diseases image model).2 = (model image).plot := by
  refine ⟨by simp [detect_diseases], fun i => ?_, rfl⟩
  simp [detect_diseases]

/-- Claim C7: when detection returns a non-empty label list, the
presentation layer builds a remedy query naming each distinct detected
disease exactly once (the deduplicated list is duplicate-free and has the
same members as the detected list), passes that query to `generate_answer`
and renders the returned remedy with its sources; when the list is empty, no
query is generated and the healthy-leaf message is shown. -/
theorem detection_flow_remedy_query (detected_classes : List String)
    (conversation : Option Conversation) (llm : Option LLM) :
    if detected_classes.isEmpty then
      detection_flow detected_classes conversation llm
        = DetectionOutcome.healthy
            "✅ No disease detected on the leaf. The leaf appears healthy!"
    else
      detection_flow detected_classes conversation llm
        = DetectionOutcome.remedy
            ("What is the remedy for " ++ String.intercalate ", " detected_classes.dedup ++
             " in coffee leaves? Provide detailed treatment and prevention methods.")
            (generate_answer
              ("What is the remedy for " ++ String.intercalate ", " detected_classes.dedup ++
               " in coffee leaves? Provide detailed treatment and prevention methods.")
              conversation llm).1
            (generate_answer
              ("What is the remedy for " ++ String.intercalate ", " detected_classes.dedup ++
               " in coffee leaves? Provide detailed treatment and prevention methods.")
              conversation llm).2 ∧
      detected_classes.dedup.Nodup ∧
      ∀ d : String, d ∈ detected_classes.dedup ↔ d ∈ detected_classes := by
  by_cases h : detected_classes.isEmpty = true
  · rw [if_pos h]
    unfold detection_flow
    rw [if_pos h]
  · rw [if_neg h]
    refine ⟨?_, List.nodup_dedup _, fun d => List.mem_dedup⟩
    unfold detection_flow
    rw [if_neg h]

/-- Claim C9, counterexample: on a successful retrieval-chain path with no
retrieved source documents, the sources list is not replaced by
`["Retrieved from knowledge base"]` as the claim states: the short chain
answer `"short"` triggers the LLM fallback first, which overwrites the
sources with the fallback sentinel, and the cleanup then leaves that
sentinel in place. -/
theorem generate_answer_sources_fallback_sentinel_kept :
    (generate_answer "coffee"
        (some ⟨fun _ => Except.ok (ChainResponse.dictAnswer "short" [])⟩)
        (some stubLLM)).2
      = ["Generated from general agricultural knowledge"] ∧
    ["Generated from general agricultural knowledge"] ≠ ["Retrieved from knowledge base"] :=
  ⟨by decide, by decide⟩

/-- Claim C9, amended: on every successful retrieval-chain path the returned
sources list is non-empty; and whenever the sources present at the cleanup
point (the retrieved documents, or the fallback replacement if the LLM
fallback overwrote them) are empty or all shorter than 20 characters after
stripping, the list is replaced by the single element
`"Retrieved from knowledge base"`. -/
theorem generate_answer_sources_nonempty (question answer : String) (docs : List String)
    (llm : Option LLM)
    (hc : is_coffee_related question = true)
    (hg : is_greeting question = false) :
    (generate_answer question
        (some ⟨fun _ => Except.ok (ChainResponse.dictAnswer answer docs)⟩) llm).2 ≠ [] ∧
    (((dictAnswerSources question (cleanAnswer answer) docs llm).1.2.isEmpty
        || (dictAnswerSources question (cleanAnswer answer) docs llm).1.2.all
             (fun src => (pyStrip src).data.length < 20)) = true →
      (generate_answer question
          (some ⟨fun _ => Except.ok (ChainResponse.dictAnswer answer docs)⟩) llm).2
        = ["Retrieved from knowledge base"]) := by
  have hcond : (is_greeting question || ! is_coffee_related question) = false := by
    simp [hg, hc]
  have he : (generate_answer question
        (some ⟨fun _ => Except.ok (ChainResponse.dictAnswer answer docs)⟩) llm).2
      = sourcesCleanup (dictAnswerSources question (cleanAnswer answer) docs llm).1.2 := by
    unfold generate_answer
    simp only [generateAnswerT, hcond]
    rfl
  rw [he]
  constructor
  · exact sourcesCleanup_ne_nil _
  · intro hshort
    unfold sourcesCleanup
    rw [if_pos hshort]

/-- Claim C9, witness at a concrete input: with no LLM and no retrieved
documents, the short chain answer leaves empty sources at the cleanup point
and they are replaced by the knowledge-base placeholder. -/
theorem generate_answer_sources_nonempty_witness :
    is_coffee_related "coffee" = true ∧ is_greeting "coffee" = false ∧
    ((generate_answer "coffee"
        (some ⟨fun _ => Except.ok (ChainResponse.dictAnswer "short" [])⟩) none).2 ≠ [] ∧
    (((dictAnswerSources "coffee" (cleanAnswer "short") [] none).1.2.isEmpty
        || (dictAnswerSources "coffee" (cleanAnswer "short") [] none).1.2.all
             (fun src => (pyStrip src).data.length < 20)) = true →
      (generate_answer "coffee"
          (some ⟨fun _ => Except.ok (ChainResponse.dictAnswer "short" [])⟩) none).2
        = ["Retrieved from knowledge base"])) :=
  ⟨by decide, by decide,
    generate_answer_sources_nonempty "coffee" "short" [] none (by decide) (by decide)⟩

/-- Claim C10, counterexample: `generate_answer` can return a sources list
whose first element equals the sentinel `"Fallback to LLM (no retrieved
docs)"` — it suffices that the first retrieved document's text is exactly
that string — and the presentation layer's notice branch is then taken, so
it is not unreachable. -/
theorem fallback_sentinel_reachable_via_docs :
    (generate_answer "coffee disease remedy"
        (some ⟨fun _ => Except.ok (ChainResponse.dictAnswer
            "coffee disease remedy details and prevention methods"
            ["Fallback to LLM (no retrieved docs)"])⟩)
        none).2
      = ["Fallback to LLM (no retrieved docs)"] ∧
    latest_sources_view
        (generate_answer "coffee disease remedy"
          (some ⟨fun _ => Except.ok (ChainResponse.dictAnswer
              "coffee disease remedy details and prevention methods"
              ["Fallback to LLM (no retrieved docs)"])⟩)
          none).2
      = SourcesView.noticeShown :=
  ⟨by decide, by decide⟩

/-- Claim C10, amended: `generate_answer` itself never constructs the
sentinel `"Fallback to LLM (no retrieved docs)"`: whenever no retrieved
document's text equals that sentinel, the first element of the returned
sources list differs from it, and the presentation layer's
general-knowledge notice branch is unreachable (the sources rendering shows
the expander or nothing). -/
theorem no_fallback_sentinel_sources (question : String) (conversation : Option Conversation)
    (llm : Option LLM)
    (h : "Fallback to LLM (no retrieved docs)" ∉ chainDocs conversation question) :
    (generate_answer question conversation llm).2.head?
        ≠ some "Fallback to LLM (no retrieved docs)" ∧
    latest_sources_view (generate_answer question conversation llm).2
        ≠ SourcesView.noticeShown := by
  have hgen : (generate_answer question conversation llm).2
      = (generateAnswerT question conversation llm).1.2 := rfl
  rcases generateAnswer_sources_cases question conversation llm with
    h1 | h1 | h1 | h1 | h1 | h1 | h1
  · rw [hgen, h1]; exact ⟨by decide, by decide⟩
  · rw [hgen, h1]; exact ⟨by decide, by decide⟩
  · rw [hgen, h1]; exact ⟨by decide, by decide⟩
  · rw [hgen, h1]; exact ⟨by decide, by decide⟩
  · rw [hgen, h1]; exact ⟨by decide, by decide⟩
  · rw [hgen, h1]; exact ⟨by decide, by decide⟩
  · rw [hgen, h1]
    cases hL : chainDocs conversation question with
    | nil => exact ⟨by decide, by decide⟩
    | cons s0 rest =>
      rw [hL] at h
      have hs0 : s0 ≠ "Fallback to LLM (no retrieved docs)" := by
        intro heq
        exact h (by rw [← heq]; exact List.mem_cons_self s0 rest)
      constructor
      · simp [hs0]
      · simp [latest_sources_view, hs0]

/-- Claim C10, witness at a concrete input: with no chain at all the
retrieved documents are empty, so the sentinel does not occur among them and
the conclusion holds. -/
theorem no_fallback_sentinel_sources_witness :
    "Fallback to LLM (no retrieved docs)" ∉ chainDocs none "hello" ∧
    ((generate_answer "hello" none none).2.head?
        ≠ some "Fallback to LLM (no retrieved docs)" ∧
     latest_sources_view (generate_answer "hello" none none).2 ≠ SourcesView.noticeShown) :=
  ⟨by decide, no_fallback_sentinel_sources "hello" none none (by decide)⟩

end CoffeeRag
